import Mathlib

/-!
Verification of the agent-pipeline subsystem of the Grist AI API.

This file gives a shallow embedding of the pipeline subsystem
(`app/pipeline/plans.py`, `app/pipeline/context.py`, `app/pipeline/executor.py`),
the router (`app/agents/router_agent.py`), the SQL validator and runner
(`app/grist/sql_runner.py`), and the analysis agent
(`app/agents/analysis_agent.py`).  Pure Python functions become Lean
functions; the mutable `ExecutionContext` becomes explicit state passing;
network and LLM calls become oracle parameters (the embedded code never
inspects their internals beyond what the Python code does); a Python
exception raised by a stage handler is modelled as an `Option String`
component of the handler result, carrying the exception text.

Python string primitives (`strip`, `upper`, `lower`, `count`, `in`,
`startswith`, `join`, truthiness of `Optional[str]`) are modelled by the
`py*` helpers below, operating on the character list of a `String`.
-/

/-! ## Python string primitives -/

/-- Python `s.strip()`: remove leading and trailing whitespace. -/
def pyStrip (s : String) : String :=
  ⟨((s.data.dropWhile Char.isWhitespace).reverse.dropWhile Char.isWhitespace).reverse⟩

/-- Python `s.upper()` (ASCII letters, as used by the SQL validator). -/
def pyUpper (s : String) : String := ⟨s.data.map Char.toUpper⟩

/-- Python `s.lower()` (ASCII letters, as used by the router). -/
def pyLower (s : String) : String := ⟨s.data.map Char.toLower⟩

/-- Python `needle in hay` on strings: substring containment. -/
def pyContains (hay needle : String) : Bool := decide (needle.data <:+: hay.data)

/-- Python `s.startswith(pre)`. -/
def pyStartsWith (s pre : String) : Bool := pre.data.isPrefixOf s.data

/-- Python `s.count(c)` for a single character. -/
def pyCount (s : String) (c : Char) : Nat := s.data.count c

/-- Python `sep.join(parts)`. -/
def pyJoin (sep : String) : List String → String
  | [] => ""
  | x :: xs => xs.foldl (fun acc y => acc ++ sep ++ y) x

/-- Python truthiness of an `Optional[str]`: `None` and `""` are falsy. -/
def pyFalsyStrOpt : Option String → Bool
  | none => true
  | some s => s.data.isEmpty

/-- Decimal digit list of a natural number, least significant last.
This models the rendering of `str(n)` / f-string interpolation of an `int`;
`natStr_eq_repr` below proves it agrees with Lean's own `Nat.repr`. -/
def natDigits (n : Nat) : List Char :=
  if _h : n < 10 then [Nat.digitChar n]
  else natDigits (n / 10) ++ [Nat.digitChar (n % 10)]
decreasing_by exact Nat.div_lt_self (by omega) (by omega)

/-- Python `str(n)` for a natural number. -/
def natStr (n : Nat) : String := ⟨natDigits n⟩

/-- Numeric value of a decimal digit string (used by the display-table
re-parsing functions of the round-trip claim). -/
def digitsVal (l : List Char) : Nat := l.foldl (fun a c => a * 10 + (c.toNat - 48)) 0

/-! ## Data model (`app/models`, `app/pipeline/plans.py`) -/

/-- Role of a conversation message (`app/models/message.py`). -/
inductive MessageRole where
  | user
  | assistant
  | system
deriving DecidableEq

/-- A conversation message (`app/models/message.py`). -/
structure Message where
  role : MessageRole
  content : String
deriving DecidableEq

/-- `AgentType` enum of `app/pipeline/plans.py`. -/
inductive AgentType where
  | generic
  | sql
  | analysis
  | architecture
deriving DecidableEq

/-- The `.value` string of each `AgentType` member. -/
def AgentType.value : AgentType → String
  | .generic => "generic"
  | .sql => "sql"
  | .analysis => "analysis"
  | .architecture => "architecture"

/-- `ExecutionPlan` dataclass of `app/pipeline/plans.py`. -/
structure ExecutionPlan where
  name : String
  agents : List AgentType
  description : String
  requires_api_key : Bool := false
deriving DecidableEq

/-- Plan 1 of `AVAILABLE_PLANS`: general conversation. -/
def genericPlan : ExecutionPlan :=
  { name := "generic"
    agents := [.generic]
    description := "Conversation générale, questions sur Grist, aide"
    requires_api_key := false }

/-- Plan 2 of `AVAILABLE_PLANS`: SQL query plus analysis. -/
def dataQueryPlan : ExecutionPlan :=
  { name := "data_query"
    agents := [.sql, .analysis]
    description := "Requête SQL + analyse des résultats"
    requires_api_key := true }

/-- Plan 3 of `AVAILABLE_PLANS`: architecture review. -/
def architectureReviewPlan : ExecutionPlan :=
  { name := "architecture_review"
    agents := [.architecture]
    description := "Analyse de la structure des données (normalisation, relations)"
    requires_api_key := true }

/-- The `AVAILABLE_PLANS` table of `app/pipeline/plans.py`. -/
def AVAILABLE_PLANS : List (String × ExecutionPlan) :=
  [("generic", genericPlan), ("data_query", dataQueryPlan),
   ("architecture_review", architectureReviewPlan)]

/-- Dictionary lookup in `AVAILABLE_PLANS`; `get_plan` raises `KeyError`
exactly when this returns `none`. -/
def getPlan? (name : String) : Option ExecutionPlan :=
  (AVAILABLE_PLANS.find? (fun p => p.1 = name)).map Prod.snd

/-- `list_plans()` of `app/pipeline/plans.py`. -/
def listPlans : List String := AVAILABLE_PLANS.map Prod.fst

/-! ## Query results (`app/grist/sql_runner.py` result dictionaries) -/

/-- One result row: a mapping from column name to the (stringified) cell
value, as consumed by the formatters via `str(row.get(col, ""))`. -/
abbrev Row : Type := List (String × String)

/-- Python `row.get(col, "")` followed by `str(...)` (values are modelled
by their string rendering, which is all the formatters ever read). -/
def Row.get (row : Row) (col : String) : String :=
  match row.find? (fun p => p.1 = col) with
  | some p => p.2
  | none => ""

/-- The result dictionary built by `GristSQLRunner.execute_sql`.  `error`
and `row_count` are optional because the Python dictionary carries the
`error` key only on failure and the `row_count` key only on success. -/
structure SqlResult where
  success : Bool
  data : List Row
  columns : List String
  error : Option String := none
  row_count : Option Nat := none
deriving DecidableEq

/-! ## Execution context (`app/pipeline/context.py`) -/

/-- `ExecutionContext` dataclass.  The `schemas`, `architecture_analysis`
and `history_config` attributes are never read or written by any embedded
operation (no claim touches them) and are elided. -/
structure ExecutionContext where
  user_message : String
  conversation_history : List Message
  document_id : String
  grist_api_key : Option String
  request_id : String
  sql_query : Option String := none
  sql_results : Option SqlResult := none
  analysis : Option String := none
  response_text : Option String := none
  agent_used : String := "none"
  data_analyzed : Bool := false
  error : Option String := none
  execution_trace : List String := []
deriving DecidableEq

/-- `ExecutionContext.has(key)`: `getattr(self, key, None) is not None`.
The never-optional attributes always hold a value, hence `true`. -/
def ExecutionContext.has (ctx : ExecutionContext) (key : String) : Bool :=
  match key with
  | "user_message" => true
  | "conversation_history" => true
  | "document_id" => true
  | "request_id" => true
  | "agent_used" => true
  | "data_analyzed" => true
  | "execution_trace" => true
  | "grist_api_key" => ctx.grist_api_key.isSome
  | "sql_query" => ctx.sql_query.isSome
  | "sql_results" => ctx.sql_results.isSome
  | "analysis" => ctx.analysis.isSome
  | "response_text" => ctx.response_text.isSome
  | "error" => ctx.error.isSome
  | _ => false

/-- `ExecutionContext.add_trace(agent_name, action)`. -/
def ExecutionContext.add_trace (ctx : ExecutionContext) (agent_name action : String) :
    ExecutionContext :=
  { ctx with execution_trace := ctx.execution_trace ++ [agent_name ++ ": " ++ action] }

/-- `ExecutionContext.set_response(text, agent_name)`. -/
def ExecutionContext.set_response (ctx : ExecutionContext) (text agent_name : String) :
    ExecutionContext :=
  ({ ctx with response_text := some text, agent_used := agent_name }).add_trace
    agent_name ("Set response (" ++ natStr text.length ++ " chars)")

/-- `ExecutionContext.set_error(error_message, agent_name)`. -/
def ExecutionContext.set_error (ctx : ExecutionContext) (error_message agent_name : String) :
    ExecutionContext :=
  ({ ctx with error := some error_message, agent_used := agent_name }).add_trace
    agent_name ("Error: " ++ error_message)

/-! ## Router (`app/agents/router_agent.py`) -/

/-- `RouterAgent.route_to_plan`.  The LLM classification call
(`_classify_intent` up to and including `response.choices[0].message.content`)
is an oracle: `Except.ok content` is the raw reply text, `Except.error e`
is any exception raised by the call.  The Python code then applies
`.strip().lower()`, looks the name up with `get_plan`, falls back to
`get_plan("generic")` on `KeyError`, and the outer `try` also falls back
to `get_plan("generic")` on any exception. -/
def route_to_plan (llmReply : Except String String) : ExecutionPlan :=
  match llmReply with
  | .error _ => genericPlan
  | .ok content =>
    let plan_name := pyLower (pyStrip content)
    match getPlan? plan_name with
    | some plan => plan
    | none => genericPlan

/-! ## Pipeline executor (`app/pipeline/executor.py`) -/

/-- A stage handler: the effect of one `_execute_agent` dispatch branch on
the context.  The `Option String` component is the text of a Python
exception raised by the stage (and possibly escaping mid-mutation),
`none` meaning normal completion. -/
def Handler : Type := ExecutionContext → ExecutionContext × Option String

/-- `ChatResponse` model of `app/models/request.py`. -/
structure ChatResponse where
  response : String
  agent_used : String
  sql_query : Option String := none
  data_analyzed : Bool := false
  error : Option String := none
deriving DecidableEq

/-- `PipelineExecutor._build_response`: substitute the fixed fallback text
attributed to no agent when the response text is still falsy, then build
the `ChatResponse` from the context fields.  Returns the mutated context
together with the response. -/
def build_response (ctx : ExecutionContext) : ExecutionContext × ChatResponse :=
  let ctx' :=
    if pyFalsyStrOpt ctx.response_text then
      { ctx with response_text := some "Désolé, je n\x27ai pas pu générer de réponse."
                 agent_used := "none" }
    else ctx
  (ctx', { response := ctx'.response_text.getD ""
           agent_used := ctx'.agent_used
           sql_query := ctx'.sql_query
           data_analyzed := ctx'.data_analyzed
           error := ctx'.error })

/-- The `for agent_type in plan.agents` loop of `PipelineExecutor.execute`
together with `_execute_agent`: an unregistered agent type is skipped with
a warning; a registered handler is invoked, and if it raises, the
exception is caught, a trace entry is appended, and the loop continues
with the remaining stages.  The second component is the (ghost) list of
stages whose handler was actually invoked, in invocation order. -/
def runStages (handlers : AgentType → Option Handler) :
    List AgentType → ExecutionContext → ExecutionContext × List AgentType
  | [], ctx => (ctx, [])
  | a :: rest, ctx =>
    match handlers a with
    | none => runStages handlers rest ctx
    | some h =>
      let step := h ctx
      let ctx' :=
        match step.2 with
        | none => step.1
        | some e => step.1.add_trace a.value ("Error: " ++ e)
      let r := runStages handlers rest ctx'
      (r.1, a :: r.2)

/-- `PipelineExecutor.execute`: check the API-key precondition, run the
stages, build the final response.  Returns the response, the final
context, and the ghost list of invoked stages. -/
def execute (handlers : AgentType → Option Handler) (plan : ExecutionPlan)
    (ctx : ExecutionContext) : ChatResponse × ExecutionContext × List AgentType :=
  if plan.requires_api_key && pyFalsyStrOpt ctx.grist_api_key then
    let ctx' := ctx.set_error "Cette opération nécessite une clé API Grist" "pipeline_executor"
    let br := build_response ctx'
    (br.2, br.1, [])
  else
    let r := runStages handlers plan.agents ctx
    let br := build_response r.1
    (br.2, br.1, r.2)

/-! ## SQL validation and execution (`app/grist/sql_runner.py`) -/

/-- The `forbidden_keywords` list of `GristSQLRunner.validate_sql_query`. -/
def forbidden_keywords : List String :=
  ["DROP", "DELETE", "UPDATE", "INSERT", "ALTER", "CREATE", "TRUNCATE"]

/-- `sql_clean = sql_query.strip().upper()`. -/
def sqlClean (sql_query : String) : String := pyUpper (pyStrip sql_query)

/-- `GristSQLRunner.validate_sql_query`: returns `(is_valid, message)`. -/
def validate_sql_query (sql_query : String) : Bool × String :=
  let sql_clean := sqlClean sql_query
  match forbidden_keywords.find? (fun kw => pyContains sql_clean kw) with
  | some keyword =>
    (false, "Requête interdite: contient le mot-clé \x27" ++ keyword ++ "\x27")
  | none =>
    if !pyStartsWith sql_clean "SELECT" then
      (false, "Seules les requêtes SELECT sont autorisées")
    else if pyCount sql_clean '(' ≠ pyCount sql_clean ')' then
      (false, "Parenthèses non équilibrées")
    else
      (true, "Requête valide")

/-- Outcome of the HTTP round trip performed by `execute_sql` once
validation has passed: a 200 response carrying `records` and `columns`, a
non-200 response, an `httpx.TimeoutException`, or any other exception. -/
inductive NetOutcome where
  | ok (records : List Row) (columns : List String)
  | httpError (status : Nat) (text : String)
  | timeout
  | exc (msg : String)

/-- `GristSQLRunner.execute_sql`: validate, then (only if valid) perform
the network call, mapping each outcome to the result dictionary the
Python code builds.  The network is the oracle `net`. -/
def execute_sql (net : NetOutcome) (sql_query : String) : SqlResult :=
  let v := validate_sql_query sql_query
  if !v.1 then
    { success := false, error := some v.2, data := [], columns := [] }
  else
    match net with
    | .ok records columns =>
      { success := true, data := records, columns := columns
        row_count := some records.length }
    | .httpError status text =>
      { success := false, error := some ("Erreur HTTP " ++ natStr status ++ ": " ++ text)
        data := [], columns := [] }
    | .timeout =>
      { success := false, error := some "Timeout lors de l\x27exécution de la requête SQL"
        data := [], columns := [] }
    | .exc msg =>
      { success := false, error := some ("Exception lors de l\x27exécution SQL: " ++ msg)
        data := [], columns := [] }

/-- Python `str(...)` of a list of row dictionaries, used only by the
no-columns fallback branches of the two formatters.  No claim depends on
this text (every embedded claim assumes a non-empty column list); it is
rendered through Lean `toString` of the underlying pairs. -/
def pyStrRows (rows : List Row) : String :=
  toString (rows.map (fun row => (row : List (String × String))))

/-- Cell rendering shared by the two display-table formatters: a value
longer than `cap` characters is cut to `keep` characters plus "...". -/
def truncCell (cap keep : Nat) (value : String) : String :=
  if value.data.length > cap then ⟨value.data.take keep⟩ ++ "..." else value

/-- The column-header line `"| c1 | c2 |\n"` of a display table. -/
def headerRowLine (columns : List String) : String :=
  "| " ++ pyJoin " | " columns ++ " |\n"

/-- The separator line `"| --- | --- |\n"` of a display table. -/
def sepRowLine (columns : List String) : String :=
  "| " ++ pyJoin " | " (columns.map (fun _ => "---")) ++ " |\n"

/-- One data-row line of a display table. -/
def rowLine (cap keep : Nat) (columns : List String) (row : Row) : String :=
  "| " ++ pyJoin " | " (columns.map (fun col => truncCell cap keep (row.get col))) ++ " |\n"

/-- The row block of a display table: the first `maxRows` rows, one line
each (the Python `for row in data[:maxRows]` accumulation loop). -/
def tableBody (cap keep maxRows : Nat) (columns : List String) (data : List Row) : String :=
  (data.take maxRows).foldl (fun acc row => acc ++ rowLine cap keep columns row) ""

/-- The "... et N autres lignes." suffix appended when the row count
exceeds the display cap. -/
def moreSuffix (maxRows : Nat) (data : List Row) : String :=
  if data.length > maxRows then
    "\n... et " ++ natStr (data.length - maxRows) ++ " autres lignes.\n"
  else ""

/-- `GristSQLRunner.format_results_for_analysis`: display table capped at
10 rows, 50-character cells (47 plus ellipsis), with an explicit
"... et N autres lignes." suffix past the cap. -/
def format_results_for_analysis (sql_result : SqlResult) : String :=
  if !sql_result.success then
    "Erreur lors de l\x27exécution de la requête: " ++
      (sql_result.error.getD "Erreur inconnue")
  else
    let data := sql_result.data
    let columns := sql_result.columns
    if data.isEmpty then "Aucune donnée trouvée pour cette requête."
    else
      let formatted := "Résultats de la requête (" ++ natStr data.length ++ " lignes):\n\n"
      if columns.isEmpty then formatted ++ pyStrRows data
      else
        formatted ++ headerRowLine columns ++ sepRowLine columns ++
          tableBody 50 47 10 columns data ++ moreSuffix 10 data

/-! ## Analysis agent (`app/agents/analysis_agent.py`) -/

/-- `AnalysisAgent._format_data_for_analysis`: display table capped at 20
rows, 30-character cells (27 plus ellipsis), with an explicit
"... et N autres lignes." suffix past the cap. -/
def format_data_for_analysis (sql_results : SqlResult) : String :=
  if !sql_results.success || sql_results.data.isEmpty then "Aucune donnée disponible"
  else
    let data := sql_results.data
    let columns := sql_results.columns
    let max_rows := 20
    let formatted := "Données (" ++ natStr data.length ++ " ligne" ++
      (if data.length > 1 then "s" else "") ++ "):\n\n"
    if columns.isEmpty then formatted ++ pyStrRows (data.take max_rows)
    else
      formatted ++ headerRowLine columns ++ sepRowLine columns ++
        tableBody 30 27 max_rows columns data ++ moreSuffix max_rows data

/-- `AnalysisAgent._handle_sql_error`: the SQL-error template.  (The
`user_message` parameter is accepted and ignored, as in the source.) -/
def handle_sql_error (_user_message : String) (sql_results : SqlResult) : String :=
  let error_msg := sql_results.error.getD "Erreur SQL inconnue"
  pyJoin "\n"
    ["## ❌ Erreur d\x27exécution SQL",
     "",
     "La requête SQL a échoué et ne peut pas être analysée.",
     "",
     "**Erreur technique :** " ++ error_msg,
     "",
     "### Suggestions pour résoudre :",
     "• Vérifiez vos permissions d\x27accès aux données",
     "• Reformulez votre question avec des termes plus simples",
     "• Assurez-vous que les tables et colonnes existent",
     "• Contactez l\x27administrateur si l\x27erreur persiste"]

/-- `AnalysisAgent._handle_empty_results`: the templated empty-result
message.  (Both parameters are accepted and ignored, as in the source.) -/
def handle_empty_results (_user_message : String) (_sql_query : Option String) : String :=
  pyJoin "\n"
    ["## 📊 Analyse des résultats",
     "",
     "La requête s\x27est exécutée avec succès mais n\x27a retourné aucune donnée.",
     "",
     "### 🔍 Que signifie ce résultat ?",
     "",
     "**C\x27est normal !** Cela peut signifier que :",
     "• Aucune donnée ne correspond à vos critères de recherche",
     "• Les filtres appliqués sont trop restrictifs",
     "• Les données recherchées n\x27existent pas encore dans votre base",
     "",
     "### 💡 Suggestions pour approfondir :",
     "• **Élargir la recherche :** Essayez avec des critères moins restrictifs",
     "• **Vérifier les données :** Demandez un aperçu général de vos tables",
     "• **Reformuler :** Posez la question différemment",
     "",
     "**Exemples de questions plus larges :**",
     "• \x27Montre-moi un aperçu de toutes les données\x27",
     "• \x27Quelles sont les données disponibles dans cette table ?\x27",
     "• \x27Combien de lignes contient cette table ?\x27"]

/-- `AnalysisAgent._get_fallback_analysis`. -/
def get_fallback_analysis (_user_message : String) (dataRows : List Row) : String :=
  let row_count := dataRows.length
  if row_count = 0 then "Aucune donnée trouvée pour cette requête."
  else "J\x27ai trouvé " ++ natStr row_count ++ " résultat" ++
    (if row_count > 1 then "s" else "") ++
    " mais je ne peux pas les analyser pour le moment."

/-- `AnalysisAgent.process_message`.  The LLM interpretation call inside
`_generate_analysis` is the oracle `llm` (`Except.ok content` is the raw
reply, `Except.error` any exception of the call, which `_generate_analysis`
catches, returning the fallback analysis over empty data).  The second
component of the result is a ghost flag recording whether the LLM
interpretation step ran. -/
def analysis_process_message (llm : Except String String) (user_message : String)
    (sql_query : Option String) (sql_results : SqlResult) : String × Bool :=
  if !sql_results.success then
    (handle_sql_error user_message sql_results, false)
  else if sql_results.data.isEmpty then
    (handle_empty_results user_message sql_query, false)
  else
    match llm with
    | .ok content => (pyStrip content, true)
    | .error _ => (get_fallback_analysis user_message [], true)

/-! ## Concrete stage handlers (`PipelineExecutor._execute_*_agent`)

Python invokes methods dynamically: a call whose positional argument
count does not match the method signature raises `TypeError` before the
method body runs.  Two call sites in the executor have exactly this
mismatch, so the corresponding stages are modelled as raising. -/

/-- Number of positional parameters of `GenericAgent.process_message`
besides `self` (`app/agents/generic_agent.py`, line 42: `(self, context)`). -/
def genericProcessMessageParams : Nat := 1

/-- Number of positional arguments the executor passes to
`GenericAgent.process_message` (`executor.py`, lines 206-210:
`user_message, filtered_history, request_id`). -/
def executorGenericCallArgs : Nat := 3

/-- Number of positional parameters of `SQLAgent.process_message` besides
`self` (`app/agents/sql_agent.py`, lines 71-78: `user_message,
conversation_history, document_id, grist_api_key, request_id`). -/
def sqlProcessMessageParams : Nat := 5

/-- Number of positional arguments the executor passes to
`SQLAgent.process_message` (`executor.py`, lines 218-223: `user_message,
filtered_history, document_id, request_id`). -/
def executorSqlCallArgs : Nat := 4

/-- `PipelineExecutor._execute_generic_agent`: the history filtering is
pure, then `agent.process_message` is called with 3 positional arguments
while its signature takes only the context, so the call raises
`TypeError` before the method body runs and the context is unchanged.
The branch where the arities agree is unreachable and left as a no-op. -/
def execute_generic_agent : Handler := fun ctx =>
  if executorGenericCallArgs = genericProcessMessageParams then (ctx, none)
  else
    (ctx, some "TypeError: process_message() takes 2 positional arguments but 4 were given")

/-- `PipelineExecutor._execute_sql_agent`: `agent.process_message` is
called with 4 positional arguments while its signature takes 5, so the
call raises `TypeError` before the method body runs (the body would also
hit an undefined name `context` at its step 4) and the context is
unchanged.  The branch where the arities agree is unreachable and left
as a no-op. -/
def execute_sql_agent : Handler := fun ctx =>
  if executorSqlCallArgs = sqlProcessMessageParams then (ctx, none)
  else
    (ctx, some "TypeError: process_message() missing 1 required positional argument: \x27request_id\x27")

/-- `PipelineExecutor._execute_analysis_agent`: skip when `sql_results`
is absent, otherwise run `AnalysisAgent.process_message` (LLM oracle
`llm`), store the analysis, set the response and add a trace entry. -/
def execute_analysis_agent (llm : Except String String) : Handler := fun ctx =>
  if !(ctx.has "sql_results") then (ctx, none)
  else
    match ctx.sql_results with
    | none => (ctx, none)
    | some r =>
      let response := (analysis_process_message llm ctx.user_message ctx.sql_query r).1
      let ctx₁ := { ctx with analysis := some response }
      let ctx₂ := ctx₁.set_response response "analysis"
      (ctx₂.add_trace "analysis"
        ("Generated analysis (" ++ natStr response.length ++ " chars)"), none)

/-- The agent registry the pipeline runs with: all four stage types are
registered; the architecture handler (whose flow no claim touches) is an
arbitrary parameter. -/
def realHandlers (llm : Except String String) (arch : Handler) :
    AgentType → Option Handler
  | .generic => some execute_generic_agent
  | .sql => some execute_sql_agent
  | .analysis => some (execute_analysis_agent llm)
  | .architecture => some arch

/-! ## Claim theorems -/

/-- C1: when `plan.requires_api_key` is true and the context has no Grist
API key, `execute` sets the missing-credential error on the context and
returns the built response with an empty invocation list — the result is
literally independent of the stage handlers, so no stage runs and no
stage modifies the context. -/
theorem executor_missing_key_short_circuits
    (handlers : AgentType → Option Handler) (plan : ExecutionPlan)
    (ctx : ExecutionContext) (hreq : plan.requires_api_key = true)
    (hkey : ctx.grist_api_key = none) :
    execute handlers plan ctx =
      ((build_response
          (ctx.set_error "Cette opération nécessite une clé API Grist" "pipeline_executor")).2,
       (build_response
          (ctx.set_error "Cette opération nécessite une clé API Grist" "pipeline_executor")).1,
       ([] : List AgentType)) := by
  unfold execute
  rw [hreq, hkey]
  rfl

/-- Witness for C1 at a concrete plan and context. -/
def ctxNoKey : ExecutionContext :=
  { user_message := "Montre-moi les ventes"
    conversation_history := []
    document_id := "doc1"
    grist_api_key := none
    request_id := "req-1" }

theorem executor_missing_key_short_circuits_witness :
    execute (fun _ => none) dataQueryPlan ctxNoKey =
      ((build_response
          (ctxNoKey.set_error "Cette opération nécessite une clé API Grist" "pipeline_executor")).2,
       (build_response
          (ctxNoKey.set_error "Cette opération nécessite une clé API Grist" "pipeline_executor")).1,
       ([] : List AgentType)) :=
  executor_missing_key_short_circuits (fun _ => none) dataQueryPlan ctxNoKey rfl rfl

/-- C2: (i) the stages whose handler is invoked are exactly the
registered stages of the plan, in list order, whatever the handlers do
and whether or not they raise — a raising handler never aborts the loop;
(ii) when a handler raises, the exception is caught, the trace entry
`"<stage>: Error: <exception>"` is appended, and the loop continues into
the remaining stages from that state.  (`runStages` is total, so a
handler exception never propagates out of `execute`.) -/
theorem executor_stage_failure_isolated :
    (∀ (handlers : AgentType → Option Handler) (stages : List AgentType)
       (ctx : ExecutionContext),
       (runStages handlers stages ctx).2 =
         stages.filter (fun a => (handlers a).isSome))
    ∧ (∀ (handlers : AgentType → Option Handler) (a : AgentType)
         (rest : List AgentType) (ctx ctx₁ : ExecutionContext) (h : Handler)
         (e : String), handlers a = some h → h ctx = (ctx₁, some e) →
         runStages handlers (a :: rest) ctx =
           ((runStages handlers rest (ctx₁.add_trace a.value ("Error: " ++ e))).1,
            a :: (runStages handlers rest
                    (ctx₁.add_trace a.value ("Error: " ++ e))).2)) := by
  constructor
  · intro handlers stages
    induction stages with
    | nil => intro ctx; rfl
    | cons a rest ih =>
      intro ctx
      unfold runStages
      cases ha : handlers a with
      | none => simp [ha, ih]
      | some h => simp [ha, ih]
  · intro handlers a rest ctx ctx₁ h e ha hstep
    simp only [runStages, ha, hstep]

theorem executor_stage_failure_isolated_witness :
    runStages (fun _ => some (fun ctx => (ctx, some "boom"))) [.sql, .analysis] ctxNoKey =
      ((runStages (fun _ => some (fun ctx => (ctx, some "boom"))) [.analysis]
          (ctxNoKey.add_trace AgentType.sql.value ("Error: " ++ "boom"))).1,
       AgentType.sql :: (runStages (fun _ => some (fun ctx => (ctx, some "boom"))) [.analysis]
          (ctxNoKey.add_trace AgentType.sql.value ("Error: " ++ "boom"))).2) :=
  executor_stage_failure_isolated.2 (fun _ => some (fun ctx => (ctx, some "boom")))
    AgentType.sql [.analysis] ctxNoKey ctxNoKey (fun ctx => (ctx, some "boom")) "boom" rfl rfl

/-- C3: the routed plan is always one registered in `AVAILABLE_PLANS`;
an LLM reply whose trimmed lower-cased text is not a registered plan name
routes to the generic plan, and an exception of the LLM call also routes
to the generic plan.  (`route_to_plan` is total: it never raises.) -/
theorem router_fails_closed :
    ∀ llmReply : Except String String,
      (∃ name, getPlan? name = some (route_to_plan llmReply))
      ∧ (∀ e, llmReply = .error e → route_to_plan llmReply = genericPlan)
      ∧ (∀ content, llmReply = .ok content →
           getPlan? (pyLower (pyStrip content)) = none →
           route_to_plan llmReply = genericPlan) := by
  intro llmReply
  cases llmReply with
  | error e =>
    refine ⟨⟨"generic", rfl⟩, fun _ _ => rfl, fun content hcontent => nomatch hcontent⟩
  | ok content =>
    refine ⟨?_, ?_, ?_⟩
    · cases hg : getPlan? (pyLower (pyStrip content)) with
      | none =>
        refine ⟨"generic", ?_⟩
        simp only [route_to_plan, hg]
        rfl
      | some plan =>
        refine ⟨pyLower (pyStrip content), ?_⟩
        simp only [route_to_plan, hg]
    · intro e he
      exact nomatch he
    · intro c hc hnone
      cases hc
      simp only [route_to_plan, hnone]

theorem router_fails_closed_witness :
    (∃ name, getPlan? name = some (route_to_plan (Except.error "connection reset")))
    ∧ route_to_plan (Except.error "connection reset") = genericPlan
    ∧ route_to_plan (Except.ok "  DATA_QUERY \n") = dataQueryPlan
    ∧ (∃ name, getPlan? name = some (route_to_plan (Except.ok "banana")))
    ∧ route_to_plan (Except.ok "banana") = genericPlan :=
  ⟨(router_fails_closed (Except.error "connection reset")).1,
   (router_fails_closed (Except.error "connection reset")).2.1 "connection reset" rfl,
   by decide,
   (router_fails_closed (Except.ok "banana")).1,
   (router_fails_closed (Except.ok "banana")).2.2 "banana" rfl (by decide)⟩

/-- C4: if the final response text is still unset after the stages, the
built response carries the fixed fallback string and is attributed to no
stage ("none"). -/
theorem build_response_fallback (ctx : ExecutionContext)
    (h : ctx.response_text = none) :
    (build_response ctx).2.response = "Désolé, je n\x27ai pas pu générer de réponse."
    ∧ (build_response ctx).2.agent_used = "none" := by
  unfold build_response
  rw [h]
  exact ⟨rfl, rfl⟩

theorem build_response_fallback_witness :
    (build_response ctxNoKey).2.response = "Désolé, je n\x27ai pas pu générer de réponse."
    ∧ (build_response ctxNoKey).2.agent_used = "none" :=
  build_response_fallback ctxNoKey rfl

/-- C10 counterexample: on the missing-credential path the error is set
by `set_error(..., "pipeline_executor")`, but `_build_response` then
substitutes the fallback text and overwrites the attributing stage to
"none"; the final context has the error field set while the
attributing-stage field does not name the stage that produced it. -/
theorem error_attribution_counterexample :
    (execute (fun _ => none) dataQueryPlan ctxNoKey).2.1.error =
      some "Cette opération nécessite une clé API Grist"
    ∧ (execute (fun _ => none) dataQueryPlan ctxNoKey).2.1.agent_used = "none"
    ∧ ("none" : String) ≠ "pipeline_executor" :=
  ⟨rfl, rfl, by decide⟩

/-- C10 amended: `set_error` sets the error field and the
attributing-stage field in one step, and `set_response` sets the
response-text field and the attributing-stage field in one step; the
response builder never clears the error field (it only overwrites the
attributing stage on the fallback path, which is what breaks the
pipeline-wide pairing refuted above). -/
theorem context_setters_atomic :
    (∀ (ctx : ExecutionContext) (m a : String),
       (ctx.set_error m a).error = some m ∧ (ctx.set_error m a).agent_used = a)
    ∧ (∀ (ctx : ExecutionContext) (t a : String),
       (ctx.set_response t a).response_text = some t
       ∧ (ctx.set_response t a).agent_used = a)
    ∧ (∀ ctx : ExecutionContext, (build_response ctx).1.error = ctx.error) := by
  refine ⟨fun ctx m a => ⟨rfl, rfl⟩, fun ctx t a => ⟨rfl, rfl⟩, fun ctx => ?_⟩
  unfold build_response
  cases pyFalsyStrOpt ctx.response_text <;> simp

/-- C5: concrete end-to-end run of the generic plan on the message
"Hello".  The executor calls `GenericAgent.process_message` with three
positional arguments while that method takes only the context, so the
stage raises `TypeError`, no response is set, and the pipeline returns
the fixed fallback text attributed to "none" — not a persona reply
attributed to "generic" as the specification (and the repository's own
unit tests, which call the method with three arguments) intend. -/
def ctxHello : ExecutionContext :=
  { user_message := "Hello"
    conversation_history := []
    document_id := "doc1"
    grist_api_key := none
    request_id := "req-hello" }

theorem generic_plan_hello_bug :
    (execute (realHandlers (Except.ok "Bonjour !") (fun c => (c, none)))
        genericPlan ctxHello).1 =
      { response := "Désolé, je n\x27ai pas pu générer de réponse."
        agent_used := "none"
        sql_query := none
        data_analyzed := false
        error := none }
    ∧ (execute (realHandlers (Except.ok "Bonjour !") (fun c => (c, none)))
        genericPlan ctxHello).2.1.execution_trace =
      ["generic: Error: TypeError: process_message() takes 2 positional arguments but 4 were given"] :=
  ⟨rfl, rfl⟩

/-- A non-empty string is truthy in Python. -/
theorem pyFalsyStrOpt_some_ne (s : String) (h : s ≠ "") :
    pyFalsyStrOpt (some s) = false := by
  show s.data.isEmpty = false
  cases hd : s.data.isEmpty
  · rfl
  · exfalso
    apply h
    have : s.data = [] := by simpa [List.isEmpty_iff] using hd
    cases s
    simp_all

/-- C6: running the `data_query` plan through the executor with a
(non-empty) API key present.  The SQL stage call always raises
`TypeError` (four positional arguments against a five-parameter
signature), so `sql_results` is never set, the analysis stage returns
without doing anything for lack of `sql_results`, and the final response
is the fixed fallback text attributed to "none" with
`data_analyzed = false`. -/
theorem data_query_plan_always_falls_back
    (llm : Except String String) (arch : Handler) (ctx : ExecutionContext)
    (key : String) (hkey : ctx.grist_api_key = some key) (hne : key ≠ "")
    (hresp : ctx.response_text = none) (hsql : ctx.sql_results = none)
    (hana : ctx.analysis = none) (hq : ctx.sql_query = none)
    (hda : ctx.data_analyzed = false) :
    (∀ c, execute_sql_agent c =
      (c, some "TypeError: process_message() missing 1 required positional argument: \x27request_id\x27"))
    ∧ (execute (realHandlers llm arch) dataQueryPlan ctx).1 =
      { response := "Désolé, je n\x27ai pas pu générer de réponse."
        agent_used := "none"
        sql_query := none
        data_analyzed := false
        error := ctx.error }
    ∧ (execute (realHandlers llm arch) dataQueryPlan ctx).2.1.sql_results = none
    ∧ (execute (realHandlers llm arch) dataQueryPlan ctx).2.1.analysis = none
    ∧ (execute (realHandlers llm arch) dataQueryPlan ctx).2.1.execution_trace =
      ctx.execution_trace ++
        ["sql: Error: TypeError: process_message() missing 1 required positional argument: \x27request_id\x27"] := by
  have hcond : (dataQueryPlan.requires_api_key && pyFalsyStrOpt ctx.grist_api_key) = false := by
    rw [hkey, pyFalsyStrOpt_some_ne key hne, Bool.and_false]
  have hsqlstep : ∀ c, execute_sql_agent c =
      (c, some "TypeError: process_message() missing 1 required positional argument: \x27request_id\x27") :=
    fun c => rfl
  set msg := "TypeError: process_message() missing 1 required positional argument: \x27request_id\x27" with hmsg
  set ctx₂ := ctx.add_trace "sql" ("Error: " ++ msg) with hctx₂
  have h2sql : ctx₂.sql_results = none := by rw [hctx₂]; exact hsql
  have h2resp : ctx₂.response_text = none := by rw [hctx₂]; exact hresp
  have hanastep : execute_analysis_agent llm ctx₂ = (ctx₂, none) := by
    unfold execute_analysis_agent
    rw [show ctx₂.has "sql_results" = ctx₂.sql_results.isSome from rfl, h2sql]
    rfl
  have hrun : runStages (realHandlers llm arch) dataQueryPlan.agents ctx =
      (ctx₂, [AgentType.sql, AgentType.analysis]) := by
    show runStages (realHandlers llm arch) [AgentType.sql, AgentType.analysis] ctx = _
    simp only [runStages, realHandlers, hsqlstep, hanastep, AgentType.value]
  have hexec : execute (realHandlers llm arch) dataQueryPlan ctx =
      ((build_response ctx₂).2, (build_response ctx₂).1, [AgentType.sql, AgentType.analysis]) := by
    unfold execute
    rw [hcond]
    simp only [Bool.false_eq_true, if_false, hrun]
  have hbuild1 : (build_response ctx₂).1 =
      { ctx₂ with response_text := some "Désolé, je n\x27ai pas pu générer de réponse.",
                  agent_used := "none" } := by
    unfold build_response
    rw [h2resp]
    rfl
  have hbuild2 : (build_response ctx₂).2 =
      { response := "Désolé, je n\x27ai pas pu générer de réponse."
        agent_used := "none"
        sql_query := ctx₂.sql_query
        data_analyzed := ctx₂.data_analyzed
        error := ctx₂.error } := by
    unfold build_response
    rw [h2resp]
    rfl
  refine ⟨hsqlstep, ?_, ?_, ?_, ?_⟩
  · rw [hexec, hbuild2]
    have e1 : ctx₂.sql_query = none := hq
    have e2 : ctx₂.data_analyzed = false := hda
    have e3 : ctx₂.error = ctx.error := rfl
    rw [e1, e2, e3]
  · rw [hexec, hbuild1]
    exact h2sql
  · rw [hexec, hbuild1]
    show ctx₂.analysis = none
    exact hana
  · rw [hexec, hbuild1]
    show ctx.execution_trace ++ ["sql" ++ ": " ++ ("Error: " ++ msg)] = _
    rw [hmsg]
    congr 1

/-- Witness context for C6: a fresh context carrying an API key. -/
def ctxWithKey : ExecutionContext :=
  { user_message := "Combien de clients ?"
    conversation_history := []
    document_id := "doc1"
    grist_api_key := some "k-123"
    request_id := "req-2" }

theorem data_query_plan_always_falls_back_witness :
    (∀ c, execute_sql_agent c =
      (c, some "TypeError: process_message() missing 1 required positional argument: \x27request_id\x27"))
    ∧ (execute (realHandlers (Except.ok "ok") (fun c => (c, none))) dataQueryPlan ctxWithKey).1 =
      { response := "Désolé, je n\x27ai pas pu générer de réponse."
        agent_used := "none"
        sql_query := none
        data_analyzed := false
        error := ctxWithKey.error }
    ∧ (execute (realHandlers (Except.ok "ok") (fun c => (c, none))) dataQueryPlan ctxWithKey).2.1.sql_results = none
    ∧ (execute (realHandlers (Except.ok "ok") (fun c => (c, none))) dataQueryPlan ctxWithKey).2.1.analysis = none
    ∧ (execute (realHandlers (Except.ok "ok") (fun c => (c, none))) dataQueryPlan ctxWithKey).2.1.execution_trace =
      ctxWithKey.execution_trace ++
        ["sql: Error: TypeError: process_message() missing 1 required positional argument: \x27request_id\x27"] :=
  data_query_plan_always_falls_back (Except.ok "ok") (fun c => (c, none)) ctxWithKey
    "k-123" rfl (by decide) rfl rfl rfl rfl rfl

/-- C7: `validate_sql_query` rejects exactly when the cleaned
(trimmed, upper-cased) query text contains a forbidden keyword as a
substring, or does not start with SELECT, or has differing counts of
opening and closing parentheses; and for every rejected query,
`execute_sql` returns the failure result carrying the validation message
with empty data and columns, with a result independent of the network
oracle — no network call is performed. -/
theorem validate_rejects_iff_and_no_network (sql_query : String) :
    ((validate_sql_query sql_query).1 = false ↔
      (∃ kw ∈ forbidden_keywords, pyContains (sqlClean sql_query) kw = true)
      ∨ pyStartsWith (sqlClean sql_query) "SELECT" = false
      ∨ pyCount (sqlClean sql_query) '(' ≠ pyCount (sqlClean sql_query) ')')
    ∧ ((validate_sql_query sql_query).1 = false →
        ∀ net net' : NetOutcome,
          execute_sql net sql_query = execute_sql net' sql_query
          ∧ execute_sql net sql_query =
              { success := false, error := some (validate_sql_query sql_query).2
                data := [], columns := [] }) := by
  constructor
  · simp only [validate_sql_query]
    cases hf : forbidden_keywords.find? (fun kw => pyContains (sqlClean sql_query) kw) with
    | some kw =>
      exact ⟨fun _ => Or.inl ⟨kw, List.mem_of_find?_eq_some hf, List.find?_some hf⟩,
             fun _ => rfl⟩
    | none =>
      have hnone : ∀ kw ∈ forbidden_keywords, ¬ pyContains (sqlClean sql_query) kw = true :=
        List.find?_eq_none.mp hf
      cases hs : pyStartsWith (sqlClean sql_query) "SELECT" with
      | false =>
        exact ⟨fun _ => Or.inr (Or.inl rfl), fun _ => rfl⟩
      | true =>
        rw [if_neg (by decide : ¬ ((!true) = true))]
        by_cases hc : pyCount (sqlClean sql_query) '(' = pyCount (sqlClean sql_query) ')'
        · rw [if_neg (fun h => h hc)]
          constructor
          · intro habs
            exact absurd habs (by decide)
          · intro hdisj
            rcases hdisj with ⟨kw, hkw, hcont⟩ | hstart | hcount
            · exact absurd hcont (hnone kw hkw)
            · exact absurd hstart (by decide)
            · exact absurd hc hcount
        · rw [if_pos hc]
          exact ⟨fun _ => Or.inr (Or.inr hc), fun _ => rfl⟩
  · intro hinvalid net net'
    have hmk : ∀ m : NetOutcome, execute_sql m sql_query =
        { success := false, error := some (validate_sql_query sql_query).2
          data := [], columns := [] } := by
      intro m
      simp only [execute_sql, hinvalid]
      rfl
    exact ⟨(hmk net).trans (hmk net').symm, hmk net⟩

theorem validate_rejects_iff_and_no_network_witness :
    (validate_sql_query "DROP TABLE users").1 = false
    ∧ execute_sql NetOutcome.timeout "DROP TABLE users" =
        execute_sql (NetOutcome.ok [] []) "DROP TABLE users"
    ∧ execute_sql NetOutcome.timeout "DROP TABLE users" =
        { success := false
          error := some (validate_sql_query "DROP TABLE users").2
          data := [], columns := [] } := by
  have h := (validate_rejects_iff_and_no_network "DROP TABLE users").2 (by decide)
    NetOutcome.timeout (NetOutcome.ok [] [])
  exact ⟨by decide, h.1, h.2⟩

/-- C8: for a successful `sql_results` value, the analysis agent runs the
LLM interpretation step exactly when the row set is non-empty; on an
empty successful result it returns the templated empty-result message
without any LLM call, while a query failure yields the SQL-error
template instead (also without an LLM call). -/
theorem analysis_empty_distinct_from_error (llm : Except String String)
    (user_message : String) (sql_query : Option String) (r : SqlResult) :
    (r.success = true → r.data ≠ [] → (analysis_process_message llm user_message sql_query r).2 = true)
    ∧ (r.success = true → r.data = [] →
        analysis_process_message llm user_message sql_query r =
          (handle_empty_results user_message sql_query, false))
    ∧ (r.success = false →
        analysis_process_message llm user_message sql_query r =
          (handle_sql_error user_message r, false)) := by
  refine ⟨?_, ?_, ?_⟩
  · intro hs hd
    unfold analysis_process_message
    rw [hs]
    have hde : r.data.isEmpty = false := by simpa [List.isEmpty_iff] using hd
    rw [hde]
    cases llm <;> rfl
  · intro hs hd
    unfold analysis_process_message
    rw [hs, hd]
    rfl
  · intro hs
    unfold analysis_process_message
    rw [hs]
    rfl

/-- Witness result sets for C8. -/
def rEmptySuccess : SqlResult :=
  { success := true, data := [], columns := ["n"], row_count := some 0 }

def rOneRow : SqlResult :=
  { success := true, data := [[("n", "3")]], columns := ["n"], row_count := some 1 }

def rFailure : SqlResult :=
  { success := false, data := [], columns := [], error := some "Erreur HTTP 403: forbidden" }

theorem analysis_empty_distinct_from_error_witness :
    analysis_process_message (Except.ok "ignored") "Combien ?" (some "SELECT 1") rEmptySuccess =
      (handle_empty_results "Combien ?" (some "SELECT 1"), false)
    ∧ (analysis_process_message (Except.ok "La moyenne est 3.") "Combien ?"
        (some "SELECT 1") rOneRow).2 = true
    ∧ analysis_process_message (Except.ok "ignored") "Combien ?" (some "SELECT 1") rFailure =
      (handle_sql_error "Combien ?" rFailure, false) :=
  ⟨(analysis_empty_distinct_from_error (Except.ok "ignored") "Combien ?"
      (some "SELECT 1") rEmptySuccess).2.1 rfl rfl,
   (analysis_empty_distinct_from_error (Except.ok "La moyenne est 3.") "Combien ?"
      (some "SELECT 1") rOneRow).1 rfl (by decide),
   (analysis_empty_distinct_from_error (Except.ok "ignored") "Combien ?"
      (some "SELECT 1") rFailure).2.2 rfl⟩

/-! ## Decimal digit lemmas -/

theorem natDigits_lt {n : Nat} (h : n < 10) : natDigits n = [Nat.digitChar n] := by
  rw [natDigits]
  simp [h]

theorem natDigits_ge {n : Nat} (h : ¬ n < 10) :
    natDigits n = natDigits (n / 10) ++ [Nat.digitChar (n % 10)] := by
  rw [natDigits]
  simp [h]

theorem digitChar_isDigit {m : Nat} (h : m < 10) : (Nat.digitChar m).isDigit = true := by
  interval_cases m <;> decide

theorem digitChar_val {m : Nat} (h : m < 10) : (Nat.digitChar m).toNat - 48 = m := by
  interval_cases m <;> decide

theorem natDigits_all_digit (n : Nat) : ∀ c ∈ natDigits n, c.isDigit = true := by
  induction n using Nat.strong_induction_on with
  | _ n ih =>
    by_cases h : n < 10
    · rw [natDigits_lt h]
      intro c hc
      rw [List.mem_singleton.mp hc]
      exact digitChar_isDigit h
    · rw [natDigits_ge h]
      intro c hc
      rcases List.mem_append.mp hc with h1 | h2
      · exact ih (n / 10) (Nat.div_lt_self (by omega) (by omega)) c h1
      · rw [List.mem_singleton.mp h2]
        exact digitChar_isDigit (Nat.mod_lt n (by omega))
  
theorem natDigits_ne_nil (n : Nat) : natDigits n ≠ [] := by
  by_cases h : n < 10
  · rw [natDigits_lt h]; simp
  · rw [natDigits_ge h]; simp

theorem digitsVal_append_singleton (l : List Char) (c : Char) :
    digitsVal (l ++ [c]) = digitsVal l * 10 + (c.toNat - 48) := by
  unfold digitsVal
  rw [List.foldl_append]
  rfl

theorem digitsVal_natDigits (n : Nat) : digitsVal (natDigits n) = n := by
  induction n using Nat.strong_induction_on with
  | _ n ih =>
    by_cases h : n < 10
    · rw [natDigits_lt h]
      show 0 * 10 + ((Nat.digitChar n).toNat - 48) = n
      rw [digitChar_val h]
      omega
    · rw [natDigits_ge h, digitsVal_append_singleton,
        ih (n / 10) (Nat.div_lt_self (by omega) (by omega)),
        digitChar_val (Nat.mod_lt n (by omega))]
      omega

theorem toDigitsCore_eq_natDigits :
    ∀ (fuel n : Nat) (acc : List Char), 0 < fuel → n < 10 ^ fuel →
      Nat.toDigitsCore 10 fuel n acc = natDigits n ++ acc := by
  intro fuel
  induction fuel with
  | zero => intro n acc h; omega
  | succ f ih =>
    intro n acc _ hlt
    unfold Nat.toDigitsCore
    by_cases hdiv : n / 10 = 0
    · have h10 : n < 10 := by omega
      simp only [hdiv, if_true]
      rw [natDigits_lt h10, Nat.mod_eq_of_lt h10]
      rfl
    · have hge : ¬ n < 10 := by omega
      have hf : 0 < f := by
        by_contra hf0
        have hf1 : f = 0 := by omega
        subst hf1
        simp at hlt
        omega
      have hlt' : n / 10 < 10 ^ f := Nat.nat_repr_len_aux n 10 f (by omega) hlt
      simp only [hdiv, if_false]
      rw [ih (n / 10) (Nat.digitChar (n % 10) :: acc) hf hlt', natDigits_ge hge]
      simp

theorem natStr_eq_repr (n : Nat) : natStr n = Nat.repr n := by
  have hpow : n < 10 ^ (n + 1) := by
    calc n < 2 ^ n := Nat.lt_two_pow n
    _ ≤ 10 ^ n := Nat.pow_le_pow_left (by omega) n
    _ ≤ 10 ^ (n + 1) := Nat.pow_le_pow_right (by omega) (by omega)
  unfold Nat.repr Nat.toDigits natStr
  rw [toDigitsCore_eq_natDigits (n + 1) n [] (by omega) hpow]
  simp [List.asString]

/-! ## Display-table re-parsing (the round-trip of C9) -/

/-- Re-parse the row count announced by the display-table header: the
digit run immediately after the first opening parenthesis. -/
def parseHeaderRowCountData (l : List Char) : Option Nat :=
  let ds := ((l.dropWhile (fun c => c != '(')).drop 1).takeWhile Char.isDigit
  if ds.isEmpty then none else some (digitsVal ds)

/-- String version of `parseHeaderRowCountData`. -/
def parseHeaderRowCount (s : String) : Option Nat := parseHeaderRowCountData s.data

/-- The last non-empty line of a character list (text after the last
newline, ignoring trailing newlines). -/
def lastLineData (l : List Char) : List Char :=
  ((l.reverse.dropWhile (fun c => c == '\n')).takeWhile (fun c => c != '\n')).reverse

/-- Re-parse the "... et N autres lignes." overflow suffix: if the last
non-empty line starts with the marker `"... et "`, the digit run after
the marker, else nothing. -/
def parseMoreRowsCountData (l : List Char) : Option Nat :=
  let line := lastLineData l
  if "... et ".data.isPrefixOf line then
    let ds := (line.drop "... et ".data.length).takeWhile Char.isDigit
    if ds.isEmpty then none else some (digitsVal ds)
  else none

/-- String version of `parseMoreRowsCountData`. -/
def parseMoreRowsCount (s : String) : Option Nat := parseMoreRowsCountData s.data

/-! ## List helper lemmas for the round-trip proof -/

theorem takeWhile_append_all {p : Char → Bool} {l₁ l₂ : List Char}
    (h : ∀ c ∈ l₁, p c = true) :
    (l₁ ++ l₂).takeWhile p = l₁ ++ l₂.takeWhile p := by
  rw [List.takeWhile_append, if_pos]
  rw [List.takeWhile_eq_self_iff.mpr h]

theorem dropWhile_append_all {p : Char → Bool} {l₁ l₂ : List Char}
    (h : ∀ c ∈ l₁, p c = true) :
    (l₁ ++ l₂).dropWhile p = l₂.dropWhile p := by
  rw [List.dropWhile_append, if_pos]
  rw [List.dropWhile_eq_nil_iff.mpr h]
  rfl

theorem dropWhile_stop {p : Char → Bool} {l r : List Char} (hl : l ≠ [])
    (hall : ∀ c ∈ l, p c = false) :
    (l ++ r).dropWhile p = l ++ r := by
  cases l with
  | nil => exact absurd rfl hl
  | cons a tl =>
    rw [List.cons_append, List.dropWhile_cons_of_neg]
    rw [hall a (List.mem_cons_self a tl)]
    simp

theorem lastLineData_append (pre body : List Char)
    (hb : ∀ c ∈ body, (c == '\n') = false) (hne : body ≠ []) :
    lastLineData (pre ++ '\n' :: (body ++ ['\n'])) = body := by
  unfold lastLineData
  have hrev : (pre ++ '\n' :: (body ++ ['\n'])).reverse =
      '\n' :: (body.reverse ++ '\n' :: pre.reverse) := by
    simp [List.reverse_append]
  rw [hrev, List.dropWhile_cons_of_pos (by rfl)]
  have hbrev : ∀ c ∈ body.reverse, ((c == '\n') : Bool) = false := by
    intro c hc
    exact hb c (List.mem_reverse.mp hc)
  have hbrevne : body.reverse ≠ [] := by
    simpa using hne
  rw [dropWhile_stop hbrevne hbrev]
  rw [takeWhile_append_all (p := fun c => c != '\n')
    (fun c hc => by simp [bne]; simpa using hbrev c hc)]
  rw [List.takeWhile_cons_of_neg (by simp)]
  simp

theorem parseHeader_concat (pre : List Char) (n : Nat) (c : Char) (tail : List Char)
    (hpre : ∀ x ∈ pre, ((x != '(') : Bool) = true) (hc : c.isDigit = false) :
    parseHeaderRowCountData (pre ++ '(' :: (natDigits n ++ c :: tail)) = some n := by
  unfold parseHeaderRowCountData
  rw [dropWhile_append_all hpre, List.dropWhile_cons_of_neg (by simp)]
  rw [List.drop_one, List.tail_cons]
  rw [takeWhile_append_all (natDigits_all_digit n), List.takeWhile_cons_of_neg (by simp [hc])]
  rw [List.append_nil]
  rw [if_neg (by simpa [List.isEmpty_iff] using natDigits_ne_nil n)]
  rw [digitsVal_natDigits]

theorem isDigit_ne_nl {c : Char} (h : c.isDigit = true) : ((c == '\n') : Bool) = false := by
  cases hb : ((c == '\n') : Bool)
  · rfl
  · exfalso
    have hcn : c = '\n' := by simpa using hb
    subst hcn
    exact absurd h (by decide)

theorem parseMore_suffix (pre : List Char) (m : Nat) :
    parseMoreRowsCountData
      (pre ++ '\n' :: (("... et ".data ++ (natDigits m ++ " autres lignes.".data)) ++ ['\n'])) =
      some m := by
  unfold parseMoreRowsCountData
  have hb : ∀ c ∈ "... et ".data ++ (natDigits m ++ " autres lignes.".data),
      ((c == '\n') : Bool) = false := by
    intro c hc
    rcases List.mem_append.mp hc with h1 | h2
    · exact (by decide : ∀ c ∈ "... et ".data, ((c == '\n') : Bool) = false) c h1
    · rcases List.mem_append.mp h2 with h3 | h4
      · exact isDigit_ne_nl (natDigits_all_digit m c h3)
      · exact (by decide : ∀ c ∈ " autres lignes.".data, ((c == '\n') : Bool) = false) c h4
  have hne : "... et ".data ++ (natDigits m ++ " autres lignes.".data) ≠ [] := by
    simp
  rw [lastLineData_append _ _ hb hne]
  rw [if_pos (List.isPrefixOf_iff_prefix.mpr (List.prefix_append _ _))]
  rw [List.drop_left]
  rw [takeWhile_append_all (natDigits_all_digit m), List.takeWhile_cons_of_neg (by decide)]
  rw [List.append_nil]
  rw [if_neg (by simpa [List.isEmpty_iff] using natDigits_ne_nil m)]
  rw [digitsVal_natDigits]

theorem parseMore_not_marker (l : List Char) (rest : List Char)
    (h : lastLineData l = '|' :: rest) :
    parseMoreRowsCountData l = none := by
  unfold parseMoreRowsCountData
  rw [h]
  rw [if_neg (by simp [List.isPrefixOf])]

/-! ## Character provenance of table lines -/

theorem pyJoin_chars_aux (sep : String) (xs : List String) :
    ∀ (acc : String) (c : Char),
      c ∈ (xs.foldl (fun a y => a ++ sep ++ y) acc).data →
      c ∈ acc.data ∨ c ∈ sep.data ∨ ∃ s ∈ xs, c ∈ s.data := by
  induction xs with
  | nil =>
    intro acc c hc
    exact Or.inl hc
  | cons x tl ih =>
    intro acc c hc
    rcases ih (acc ++ sep ++ x) c hc with h1 | h2 | h3
    · rw [String.data_append, String.data_append] at h1
      rcases List.mem_append.mp h1 with h4 | h5
      · rcases List.mem_append.mp h4 with h6 | h7
        · exact Or.inl h6
        · exact Or.inr (Or.inl h7)
      · exact Or.inr (Or.inr ⟨x, List.mem_cons_self x tl, h5⟩)
    · exact Or.inr (Or.inl h2)
    · obtain ⟨s, hs, hcs⟩ := h3
      exact Or.inr (Or.inr ⟨s, List.mem_cons_of_mem x hs, hcs⟩)

theorem pyJoin_chars (sep : String) (l : List String) (c : Char)
    (hc : c ∈ (pyJoin sep l).data) :
    c ∈ sep.data ∨ ∃ s ∈ l, c ∈ s.data := by
  cases l with
  | nil => exact absurd hc (by simp [pyJoin])
  | cons x tl =>
    rcases pyJoin_chars_aux sep tl x c hc with h1 | h2 | h3
    · exact Or.inr ⟨x, List.mem_cons_self x tl, h1⟩
    · exact Or.inl h2
    · obtain ⟨s, hs, hcs⟩ := h3
      exact Or.inr ⟨s, List.mem_cons_of_mem x hs, hcs⟩

theorem truncCell_no_nl (cap keep : Nat) (v : String)
    (hv : ∀ c ∈ v.data, ((c == '\n') : Bool) = false) :
    ∀ c ∈ (truncCell cap keep v).data, ((c == '\n') : Bool) = false := by
  intro c hc
  unfold truncCell at hc
  by_cases h : v.data.length > cap
  · rw [if_pos h] at hc
    rw [String.data_append] at hc
    rcases List.mem_append.mp hc with h1 | h2
    · exact hv c (List.take_subset _ _ h1)
    · exact (by decide : ∀ c ∈ ("..." : String).data, ((c == '\n') : Bool) = false) c h2
  · rw [if_neg h] at hc
    exact hv c hc

theorem rowGet_no_nl (row : Row) (col : String)
    (hrow : ∀ p ∈ row, ∀ c ∈ (Prod.snd p).data, ((c == '\n') : Bool) = false) :
    ∀ c ∈ (row.get col).data, ((c == '\n') : Bool) = false := by
  intro c hc
  unfold Row.get at hc
  cases hf : row.find? (fun p => p.1 = col) with
  | none =>
    rw [hf] at hc
    exact absurd hc (by simp)
  | some p =>
    rw [hf] at hc
    exact hrow p (List.mem_of_find?_eq_some hf) c hc

/-! ## Structure of table lines -/

/-- The cells text of one rendered row. -/
def rowCellsText (cap keep : Nat) (columns : List String) (row : Row) : String :=
  pyJoin " | " (columns.map (fun col => truncCell cap keep (row.get col)))

theorem rowLine_decomp (cap keep : Nat) (columns : List String) (row : Row) :
    (rowLine cap keep columns row).data =
      ('|' :: (' ' :: (rowCellsText cap keep columns row).data ++ [' ', '|'])) ++ ['\n'] := by
  show ("| " ++ rowCellsText cap keep columns row ++ " |\n").data = _
  rw [String.data_append, String.data_append]
  simp [List.append_assoc]

theorem rowLine_inner_no_nl (cap keep : Nat) (columns : List String) (row : Row)
    (hrow : ∀ p ∈ row, ∀ c ∈ (Prod.snd p).data, ((c == '\n') : Bool) = false) :
    ∀ c ∈ '|' :: (' ' :: (rowCellsText cap keep columns row).data ++ [' ', '|']),
      ((c == '\n') : Bool) = false := by
  intro c hc
  rcases List.mem_cons.mp hc with h1 | h2
  · rw [h1]; rfl
  rcases List.mem_cons.mp h2 with h3 | h4
  · rw [h3]; rfl
  rcases List.mem_append.mp h4 with h5 | h6
  · rcases pyJoin_chars _ _ c h5 with hsep | ⟨s, hs, hcs⟩
    · exact (by decide : ∀ c ∈ (" | " : String).data, ((c == '\n') : Bool) = false) c hsep
    · obtain ⟨col, _, hcol⟩ := List.mem_map.mp hs
      rw [← hcol] at hcs
      exact truncCell_no_nl cap keep _ (rowGet_no_nl row col hrow) c hcs
  · rcases List.mem_cons.mp h6 with h7 | h8
    · rw [h7]; rfl
    · rw [List.mem_singleton.mp h8]; rfl

/-! ## Strings ending in a newline -/

/-- The property that a rendered fragment ends with a newline. -/
def EndsNl (s : String) : Prop := ∃ l, s.data = l ++ ['\n']

theorem endsNl_append (s t : String) (h : EndsNl t) : EndsNl (s ++ t) := by
  obtain ⟨l, hl⟩ := h
  exact ⟨s.data ++ l, by rw [String.data_append, hl, List.append_assoc]⟩

theorem endsNl_rowLine (cap keep : Nat) (columns : List String) (row : Row) :
    EndsNl (rowLine cap keep columns row) :=
  ⟨_, rowLine_decomp cap keep columns row⟩

theorem endsNl_sepRowLine (columns : List String) : EndsNl (sepRowLine columns) := by
  show EndsNl ("| " ++ pyJoin " | " (columns.map fun _ => "---") ++ " |\n")
  refine ⟨"| ".data ++ (pyJoin " | " (columns.map fun _ => "---")).data ++ [' ', '|'], ?_⟩
  rw [String.data_append, String.data_append]
  simp [List.append_assoc]

theorem endsNl_tableBodyAux (cap keep : Nat) (columns : List String) :
    ∀ (rows : List Row) (acc : String), EndsNl acc →
      EndsNl (rows.foldl (fun a row => a ++ rowLine cap keep columns row) acc) := by
  intro rows
  induction rows with
  | nil => intro acc h; exact h
  | cons r tl ih =>
    intro acc h
    exact ih (acc ++ rowLine cap keep columns r)
      (endsNl_append acc _ (endsNl_rowLine cap keep columns r))

theorem data_empty_string : ("" : String).data = [] := rfl

theorem table_roundtrip_core
    (S headerPre midStr : String) (cap keep maxRows : Nat)
    (columns : List String) (data : List Row)
    (hS : S.data = headerPre.data ++ '(' :: (natDigits data.length ++
            (midStr ++ (headerRowLine columns ++ (sepRowLine columns ++
             (tableBody cap keep maxRows columns data ++ moreSuffix maxRows data)))).data))
    (hpre : ∀ x ∈ headerPre.data, ((x != '(') : Bool) = true)
    (hmid : ∃ tl, midStr.data = ' ' :: tl)
    (hdne : data ≠ []) (hmax : 1 ≤ maxRows)
    (hnl : ∀ row ∈ data, ∀ p ∈ row, ∀ c ∈ (Prod.snd p).data, ((c == '\n') : Bool) = false) :
    parseHeaderRowCount S = some data.length
    ∧ (data.length ≤ maxRows → parseMoreRowsCount S = none)
    ∧ (maxRows < data.length → parseMoreRowsCount S = some (data.length - maxRows)) := by
  obtain ⟨tl, htl⟩ := hmid
  refine ⟨?_, ?_, ?_⟩
  · show parseHeaderRowCountData S.data = _
    have hS' : S.data = headerPre.data ++ '(' :: (natDigits data.length ++ ' ' ::
        (tl ++ (headerRowLine columns ++ (sepRowLine columns ++
          (tableBody cap keep maxRows columns data ++ moreSuffix maxRows data))).data)) := by
      rw [hS, String.data_append, htl]
      simp [List.append_assoc]
    rw [hS']
    exact parseHeader_concat _ _ _ _ hpre (by decide)
  · intro hle
    show parseMoreRowsCountData S.data = none
    have hms : moreSuffix maxRows data = "" := by
      unfold moreSuffix
      rw [if_neg (by omega)]
    have htake : data.take maxRows ≠ [] := by
      rw [Ne, List.take_eq_nil_iff]
      push_neg
      exact ⟨by omega, hdne⟩
    rcases List.eq_nil_or_concat (data.take maxRows) with he | ⟨L, b, hLb⟩
    · exact absurd he htake
    have hbmem : b ∈ data := by
      refine List.take_subset maxRows data ?_
      rw [hLb, List.concat_eq_append]
      simp
    have hbody : tableBody cap keep maxRows columns data =
        (L.foldl (fun a row => a ++ rowLine cap keep columns row) "") ++
          rowLine cap keep columns b := by
      unfold tableBody
      rw [hLb, List.concat_eq_append, List.foldl_append]
      rfl
    set bodyInit := L.foldl (fun a row => a ++ rowLine cap keep columns row) "" with hbi
    have hends : EndsNl (sepRowLine columns ++ bodyInit) := by
      rcases List.eq_nil_or_concat L with hL | ⟨L', b', hL'⟩
      · obtain ⟨l, hl⟩ := endsNl_sepRowLine columns
        refine ⟨l, ?_⟩
        rw [String.data_append, hbi, hL]
        simp [hl]
      · refine endsNl_append _ _ ?_
        rw [hbi, hL', List.concat_eq_append, List.foldl_append]
        exact endsNl_append _ _ (endsNl_rowLine cap keep columns b')
    obtain ⟨y, hy⟩ := endsNl_append midStr _
      (endsNl_append (headerRowLine columns) _ hends)
    simp only [String.data_append] at hy
    have hSshape : S.data =
        (headerPre.data ++ '(' :: (natDigits data.length ++ y)) ++
          '\n' :: (('|' :: (' ' :: (rowCellsText cap keep columns b).data ++ [' ', '|'])) ++ ['\n']) := by
      calc S.data
          = headerPre.data ++ '(' :: (natDigits data.length ++
              (midStr ++ (headerRowLine columns ++ (sepRowLine columns ++
                (bodyInit ++ rowLine cap keep columns b ++ "")))).data) := by
            rw [hS, hms, hbody]
        _ = headerPre.data ++ '(' :: (natDigits data.length ++
              ((midStr.data ++ ((headerRowLine columns).data ++
                ((sepRowLine columns).data ++ bodyInit.data))) ++
                (rowLine cap keep columns b).data)) := by
            simp [String.data_append, List.append_assoc]
        _ = headerPre.data ++ '(' :: (natDigits data.length ++
              ((y ++ ['\n']) ++
                (('|' :: (' ' :: (rowCellsText cap keep columns b).data ++ [' ', '|'])) ++ ['\n']))) := by
            rw [hy, rowLine_decomp]
        _ = (headerPre.data ++ '(' :: (natDigits data.length ++ y)) ++
              '\n' :: (('|' :: (' ' :: (rowCellsText cap keep columns b).data ++ [' ', '|'])) ++ ['\n']) := by
            simp [List.append_assoc]
    rw [hSshape]
    exact parseMore_not_marker _ _
      (lastLineData_append _ _ (rowLine_inner_no_nl cap keep columns b (hnl b hbmem))
        (by simp))
  · intro hgt
    show parseMoreRowsCountData S.data = some _
    have hms : moreSuffix maxRows data =
        "\n... et " ++ natStr (data.length - maxRows) ++ " autres lignes.\n" := by
      unfold moreSuffix
      rw [if_pos (by omega)]
    have h1 : ("\n... et " : String).data = '\n' :: "... et ".data := by decide
    have h2 : (" autres lignes.\n" : String).data = " autres lignes.".data ++ ['\n'] := by
      decide
    have h3 : (natStr (data.length - maxRows)).data = natDigits (data.length - maxRows) := rfl
    have hSshape : S.data =
        (headerPre.data ++ '(' :: (natDigits data.length ++
          (midStr.data ++ ((headerRowLine columns).data ++ ((sepRowLine columns).data ++
            (tableBody cap keep maxRows columns data).data))))) ++
          '\n' :: (("... et ".data ++
            (natDigits (data.length - maxRows) ++ " autres lignes.".data)) ++ ['\n']) := by
      rw [hS, hms]
      simp only [String.data_append, h1, h2, h3]
      simp [List.append_assoc]
    rw [hSshape]
    exact parseMore_suffix _ _

theorem format_data_for_analysis_eq (r : SqlResult) (hs : r.success = true)
    (hd : r.data ≠ []) (hc : r.columns ≠ []) :
    format_data_for_analysis r =
      ("Données (" ++ natStr r.data.length ++ " ligne" ++
        (if r.data.length > 1 then "s" else "") ++ "):\n\n") ++
        headerRowLine r.columns ++ sepRowLine r.columns ++
        tableBody 30 27 20 r.columns r.data ++ moreSuffix 20 r.data := by
  have hde : r.data.isEmpty = false := by simpa [List.isEmpty_iff] using hd
  have hce : r.columns.isEmpty = false := by simpa [List.isEmpty_iff] using hc
  simp only [format_data_for_analysis, hs, hde, hce, Bool.not_true, Bool.false_or,
    Bool.false_eq_true, if_false]

theorem format_results_for_analysis_eq (r : SqlResult) (hs : r.success = true)
    (hd : r.data ≠ []) (hc : r.columns ≠ []) :
    format_results_for_analysis r =
      ("Résultats de la requête (" ++ natStr r.data.length ++ " lignes):\n\n") ++
        headerRowLine r.columns ++ sepRowLine r.columns ++
        tableBody 50 47 10 r.columns r.data ++ moreSuffix 10 r.data := by
  have hde : r.data.isEmpty = false := by simpa [List.isEmpty_iff] using hd
  have hce : r.columns.isEmpty = false := by simpa [List.isEmpty_iff] using hc
  simp only [format_results_for_analysis, hs, hde, hce, Bool.not_true,
    Bool.false_eq_true, if_false]

/-- C9: round-trip of the display-table formatting.  For every successful
tabular result set (non-empty rows and columns, cell text free of
newlines), re-parsing the row count from the table header of either
formatter reproduces the original row count; the "N more rows" suffix is
absent when the row count is within the display cap (20 rows for the
analysis formatter, 10 for the runner formatter) and otherwise carries
exactly the original count minus the cap, so that the number of rendered
rows plus the suffix count reconstructs the original row count. -/
theorem format_table_roundtrip (r : SqlResult)
    (hs : r.success = true) (hd : r.data ≠ []) (hc : r.columns ≠ [])
    (hnl : ∀ row ∈ r.data, ∀ p ∈ row, ∀ ch ∈ (Prod.snd p).data,
      ((ch == '\n') : Bool) = false) :
    (parseHeaderRowCount (format_data_for_analysis r) = some r.data.length
     ∧ (r.data.length ≤ 20 → parseMoreRowsCount (format_data_for_analysis r) = none)
     ∧ (20 < r.data.length →
         parseMoreRowsCount (format_data_for_analysis r) = some (r.data.length - 20))
     ∧ (r.data.take 20).length +
         (parseMoreRowsCount (format_data_for_analysis r)).getD 0 = r.data.length)
    ∧ (parseHeaderRowCount (format_results_for_analysis r) = some r.data.length
     ∧ (r.data.length ≤ 10 → parseMoreRowsCount (format_results_for_analysis r) = none)
     ∧ (10 < r.data.length →
         parseMoreRowsCount (format_results_for_analysis r) = some (r.data.length - 10))
     ∧ (r.data.take 10).length +
         (parseMoreRowsCount (format_results_for_analysis r)).getD 0 = r.data.length) := by
  have hsplit1 : ("Données (" : String).data = "Données ".data ++ ['('] := by decide
  have hsplit2 : ("Résultats de la requête (" : String).data =
      "Résultats de la requête ".data ++ ['('] := by decide
  have core1 := table_roundtrip_core (format_data_for_analysis r) "Données "
    (" ligne" ++ (if r.data.length > 1 then "s" else "") ++ "):\n\n") 30 27 20
    r.columns r.data
    (by
      rw [format_data_for_analysis_eq r hs hd hc]
      simp [String.data_append, hsplit1, natStr, List.append_assoc])
    (by decide)
    (by
      by_cases h : r.data.length > 1
      · refine ⟨("ligne" ++ ("s" ++ "):\n\n")).data, ?_⟩
        rw [if_pos h]
        decide
      · refine ⟨("ligne" ++ ("" ++ "):\n\n")).data, ?_⟩
        rw [if_neg h]
        decide)
    hd (by omega) hnl
  have core2 := table_roundtrip_core (format_results_for_analysis r)
    "Résultats de la requête " " lignes):\n\n" 50 47 10 r.columns r.data
    (by
      rw [format_results_for_analysis_eq r hs hd hc]
      simp [String.data_append, hsplit2, natStr, List.append_assoc])
    (by decide)
    ⟨"lignes):\n\n".data, by decide⟩
    hd (by omega) hnl
  refine ⟨⟨core1.1, core1.2.1, core1.2.2, ?_⟩, ⟨core2.1, core2.2.1, core2.2.2, ?_⟩⟩
  · rw [List.length_take]
    by_cases h : r.data.length ≤ 20
    · rw [core1.2.1 h]
      simp
      omega
    · rw [core1.2.2 (by omega)]
      simp
      omega
  · rw [List.length_take]
    by_cases h : r.data.length ≤ 10
    · rw [core2.2.1 h]
      simp
      omega
    · rw [core2.2.2 (by omega)]
      simp
      omega

/-- Witness result sets for C9: two rows (under both caps) and
twenty-five rows (over both caps). -/
def rTwoRows : SqlResult :=
  { success := true, data := [[("n", "1")], [("n", "2")]], columns := ["n"]
    row_count := some 2 }

def rManyRows : SqlResult :=
  { success := true, data := List.replicate 25 [("n", "x")], columns := ["n"]
    row_count := some 25 }

theorem format_table_roundtrip_witness :
    (parseHeaderRowCount (format_data_for_analysis rTwoRows) = some 2
     ∧ parseMoreRowsCount (format_data_for_analysis rTwoRows) = none
     ∧ parseHeaderRowCount (format_results_for_analysis rTwoRows) = some 2
     ∧ parseMoreRowsCount (format_results_for_analysis rTwoRows) = none)
    ∧ (parseHeaderRowCount (format_data_for_analysis rManyRows) = some 25
     ∧ parseMoreRowsCount (format_data_for_analysis rManyRows) = some 5
     ∧ parseMoreRowsCount (format_results_for_analysis rManyRows) = some 15) := by
  have h2 := format_table_roundtrip rTwoRows rfl (by decide) (by decide) (by decide)
  have h25 := format_table_roundtrip rManyRows rfl (by decide) (by decide) (by decide)
  refine ⟨⟨?_, ?_, ?_, ?_⟩, ⟨?_, ?_, ?_⟩⟩
  · simpa using h2.1.1
  · exact h2.1.2.1 (by decide)
  · simpa using h2.2.1
  · exact h2.2.2.1 (by decide)
  · simpa using h25.1.1
  · simpa using h25.1.2.2.1 (by decide)
  · simpa using h25.2.2.2.1 (by decide)
